import Mathlib

/-!
Shallow embedding of `src/neutron_detector.py` (BlackRoad-OS/blackroad-neutron-detector).

Modelling conventions:
* The SQLite database is a `NetworkState`: the `detectors` table as a list of
  `DetectorUnit` rows and the `readings` table as a list of `NeutronReading`
  rows in insertion order (the autoincrement primary key is the list index).
* Python floats are modelled as exact rationals `ℚ`; the conversion factors
  (0.0064 etc.) are exact decimal literals.
* ISO-8601 timestamp strings are string-sortable and string-comparable, i.e.
  lexicographic order equals chronological order, so timestamps are modelled
  as `Int` (seconds); `timedelta(hours=h)` is `h * 3600`.
* `datetime.now()` is nondeterministic, so each operation that reads the clock
  takes `now : Int` as an explicit argument; likewise `uuid.uuid4()[:8]` in
  `register_detector` is an explicit `detector_id` argument.
* A Python call that can raise returns `Except NetError _`:
  `NetError.notFound` is the `ValueError("Detector ... not found")` raise in
  `record_reading` (the NotFoundError of the spec taxonomy), and
  `NetError.zeroDivision` is the Python `ZeroDivisionError`.
* `ORDER BY timestamp DESC LIMIT 1` (latest reading) is a fold taking the
  maximal-timestamp row; `ORDER BY timestamp` sorts by timestamp (SQLite
  leaves the relative order of equal timestamps unspecified, so any sort by
  timestamp is a faithful model; we use insertion sort).
-/

namespace NeutronDetector

/-- Row of the `detectors` table / the `DetectorUnit` dataclass. -/
structure DetectorUnit where
  id : String
  name : String
  location : String
  type : String
  sensitivity : ℚ
  baseline_cps : ℚ
  status : String
  last_calibration : Int
  alert_threshold : ℚ
deriving DecidableEq, Repr

/-- Row of the `readings` table / the `NeutronReading` dataclass. -/
structure NeutronReading where
  detector_id : String
  cps : ℚ
  dose_usv_h : ℚ
  timestamp : Int
  alert_triggered : Bool
deriving DecidableEq, Repr

/-- The persistent store: both tables, rows in insertion order. -/
structure NetworkState where
  detectors : List DetectorUnit
  readings : List NeutronReading
deriving DecidableEq, Repr

/-- Errors a call can raise. -/
inductive NetError where
  | notFound (detector_id : String)
  | zeroDivision
deriving DecidableEq, Repr

/-- Model of `CPS_TO_DOSE.get(detector_type, 0.005)`: the fixed conversion table with
its default. -/
def CPS_TO_DOSE (t : String) : ℚ :=
  if t = "he3_tube" then 0.0064
  else if t = "boron_lined" then 0.0042
  else if t = "scintillator" then 0.0055
  else if t = "fission_chamber" then 0.0075
  else if t = "activation_foil" then 0.0045
  else 0.005

/-- Model of `SELECT ... FROM detectors WHERE id = ?` (id is the primary key, so at
most one row; the list model returns the first match). -/
def findDetector (s : NetworkState) (detector_id : String) : Option DetectorUnit :=
  s.detectors.find? (fun d => d.id == detector_id)

/-- Model of `register_detector`: inserts a detector row with baseline 0.0, status
"online", last_calibration now, alert_threshold 100.0, and returns the fresh
id.  The source performs no validation of name / location / type. -/
def register_detector (s : NetworkState) (detector_id : String) (now : Int)
    (name : String) (location : String) (detector_type : String)
    (sensitivity : ℚ) : String × NetworkState :=
  (detector_id,
   { s with detectors := s.detectors ++
      [⟨detector_id, name, location, detector_type, sensitivity, 0, "online", now, 100⟩] })

/-- Model of `record_reading`: raises `ValueError` (not-found) for an unknown id,
otherwise computes dose via `CPS_TO_DOSE`, the alert flag as
`cps > alert_threshold` read at call time, and appends the reading row. -/
def record_reading (s : NetworkState) (now : Int) (detector_id : String)
    (cps : ℚ) : Except NetError (NeutronReading × NetworkState) :=
  match findDetector s detector_id with
  | none => .error (.notFound detector_id)
  | some d =>
    let dose_usv_h := cps * CPS_TO_DOSE d.type
    let alert_triggered := decide (cps > d.alert_threshold)
    let r : NeutronReading := ⟨detector_id, cps, dose_usv_h, now, alert_triggered⟩
    .ok (r, { s with readings := s.readings ++ [r] })

/-- Model of `set_threshold`: `UPDATE detectors SET alert_threshold = ? WHERE id = ?`
then unconditionally `return True` (no row-count check, no validation). -/
def set_threshold (s : NetworkState) (detector_id : String) (alert_cps : ℚ) :
    Bool × NetworkState :=
  (true,
   { s with detectors := s.detectors.map (fun d =>
      if d.id == detector_id then { d with alert_threshold := alert_cps } else d) })

/-- One step of the maximal-timestamp fold behind `ORDER BY timestamp DESC
LIMIT 1`. -/
def latestStep (acc : Option NeutronReading) (r : NeutronReading) :
    Option NeutronReading :=
  match acc with
  | none => some r
  | some b => if b.timestamp < r.timestamp then some r else some b

/-- Model of `SELECT ... ORDER BY timestamp DESC LIMIT 1` over the reading rows
of one detector: the row with maximal timestamp (first inserted on ties). -/
def latestReading (s : NetworkState) (detector_id : String) : Option NeutronReading :=
  (s.readings.filter (fun r => r.detector_id == detector_id)).foldl latestStep none

/-- One entry of the `fleet_status` result. -/
structure FleetEntry where
  id : String
  name : String
  location : String
  type : String
  status : String
  cps : ℚ
  dose_usv_h : ℚ
  timestamp : Int
deriving DecidableEq, Repr

/-- Model of `fleet_status`: for each detector row, emit an entry only when a latest
reading exists (a detector with zero readings is skipped). -/
def fleet_status (s : NetworkState) : List FleetEntry :=
  s.detectors.filterMap (fun d =>
    (latestReading s d.id).map (fun r =>
      ⟨d.id, d.name, d.location, d.type, d.status, r.cps, r.dose_usv_h, r.timestamp⟩))

/-- One entry of the `anomaly_scan` result. -/
structure Anomaly where
  detector_id : String
  baseline_cps : ℚ
  current_cps : ℚ
  multiplier : ℚ
  timestamp : Int
deriving DecidableEq, Repr

/-- Round half to even, as the Python builtin `round` breaks ties. -/
def roundHalfEven (q : ℚ) : ℤ :=
  if q - ⌊q⌋ < 1 / 2 then ⌊q⌋
  else if q - ⌊q⌋ > 1 / 2 then ⌊q⌋ + 1
  else if ⌊q⌋ % 2 = 0 then ⌊q⌋ else ⌊q⌋ + 1

/-- Python `round(q, 2)`. -/
def pyRound2 (q : ℚ) : ℚ := (roundHalfEven (q * 100) : ℚ) / 100

/-- The loop body of `anomaly_scan` over the remaining detector rows.
`round(cps / baseline, 2)` raises `ZeroDivisionError` when `baseline` is 0,
which in the source happens exactly after the `cps > baseline * 3` test has
already passed. -/
def anomalyLoop (s : NetworkState) :
    List DetectorUnit → List Anomaly → Except NetError (List Anomaly)
  | [], anomalies => .ok anomalies
  | d :: rest, anomalies =>
    match latestReading s d.id with
    | none => anomalyLoop s rest anomalies
    | some r =>
      if r.cps > d.baseline_cps * 3 then
        if d.baseline_cps = 0 then .error .zeroDivision
        else
          anomalyLoop s rest (anomalies ++
            [⟨d.id, d.baseline_cps, r.cps, pyRound2 (r.cps / d.baseline_cps), r.timestamp⟩])
      else anomalyLoop s rest anomalies

/-- Model of `anomaly_scan`: scan all detector rows, collecting anomalies. -/
def anomaly_scan (s : NetworkState) : Except NetError (List Anomaly) :=
  anomalyLoop s s.detectors []

/-- The anomaly entry the `anomaly_scan` loop emits for one detector row (none
when the detector has no reading or its latest cps does not exceed 3 ×
baseline).  Used to characterize the non-raising runs of the loop. -/
def anomalyOf (s : NetworkState) (d : DetectorUnit) : Option Anomaly :=
  match latestReading s d.id with
  | none => none
  | some r =>
    if r.cps > d.baseline_cps * 3 then
      some ⟨d.id, d.baseline_cps, r.cps, pyRound2 (r.cps / d.baseline_cps), r.timestamp⟩
    else none

/-- Comparison used by `ORDER BY timestamp` on (timestamp, cps) pairs. -/
def tsLE (a b : Int × ℚ) : Prop := a.1 ≤ b.1

instance : DecidableRel tsLE := fun a b => Int.decLe a.1 b.1

instance : IsTotal (Int × ℚ) tsLE := ⟨fun a b => Int.le_total a.1 b.1⟩

instance : IsTrans (Int × ℚ) tsLE := ⟨fun _ _ _ => Int.le_trans⟩

/-- Model of `get_spectrum`: readings of the detector with `timestamp >= now - hours`,
as (timestamp, cps) pairs, `ORDER BY timestamp` ascending. -/
def get_spectrum (s : NetworkState) (detector_id : String) (now : Int)
    (hours : Int) : List (Int × ℚ) :=
  let since := now - hours * 3600
  ((s.readings.filter
      (fun r => r.detector_id == detector_id && decide (since ≤ r.timestamp))).map
    (fun r => (r.timestamp, r.cps))).insertionSort tsLE

/-- Model of `calibrate`: with an empty 24h spectrum return 0.0 without touching the
store; otherwise set baseline to the mean cps (and last_calibration to now)
and return it. -/
def calibrate (s : NetworkState) (detector_id : String) (now : Int) :
    ℚ × NetworkState :=
  let spectrum := get_spectrum s detector_id now 24
  if spectrum.isEmpty then (0, s)
  else
    let avg_cps := (spectrum.map Prod.snd).sum / (spectrum.length : ℚ)
    (avg_cps,
     { s with detectors := s.detectors.map (fun d =>
        if d.id == detector_id then
          { d with baseline_cps := avg_cps, last_calibration := now }
        else d) })

/-! ### Concrete stores used by counterexamples and witnesses -/

/-- A detector left at the registration default baseline 0, with one recorded
reading of 5 cps: the store `anomaly_scan` crashes on. -/
def zeroBaselineState : NetworkState :=
  { detectors := [⟨"d1", "lab counter", "hall", "he3_tube", 1, 0, "online", 0, 100⟩],
    readings := [⟨"d1", 5, 5 * CPS_TO_DOSE "he3_tube", 10, false⟩] }

/-- Same shape as `zeroBaselineState`, used for the anomaly-scan iff claim. -/
def zeroBaselineState2 : NetworkState :=
  { detectors := [⟨"d2", "yard counter", "yard", "scintillator", 1, 0, "online", 0, 100⟩],
    readings := [⟨"d2", 6, 6 * CPS_TO_DOSE "scintillator", 20, false⟩] }

/-- One registered detector (baseline 4, threshold 100), no readings. -/
def W3 : NetworkState :=
  { detectors := [⟨"d1", "lab", "hall", "he3_tube", 1, 4, "online", 0, 100⟩],
    readings := [] }

/-- One registered detector of an unrecognized type, no readings. -/
def W4 : NetworkState :=
  { detectors := [⟨"d1", "lab", "hall", "mystery_box", 1, 4, "online", 0, 100⟩],
    readings := [] }

/-- The empty store. -/
def W0 : NetworkState := { detectors := [], readings := [] }

/-- A detector row with nonzero baseline 4. -/
def W5row : DetectorUnit := ⟨"d5", "dock", "bay", "boron_lined", 1, 4, "online", 0, 100⟩

/-- Store with `W5row` and one reading of 20 cps (an anomaly: 20 > 3 × 4). -/
def W5 : NetworkState :=
  { detectors := [W5row],
    readings := [⟨"d5", 20, 20 * CPS_TO_DOSE "boron_lined", 40, false⟩] }

/-- A detector row used by the calibrate witness. -/
def W6row : DetectorUnit := ⟨"d6", "roof", "north", "he3_tube", 1, 2, "online", 0, 100⟩

/-- Store with `W6row` and one reading of 8 cps at timestamp 30. -/
def W6 : NetworkState :=
  { detectors := [W6row],
    readings := [⟨"d6", 8, 8 * CPS_TO_DOSE "he3_tube", 30, false⟩] }

/-- A detector row used by the record-then-spectrum witness. -/
def W8row : DetectorUnit := ⟨"d8", "gate", "south", "fission_chamber", 1, 3, "online", 0, 100⟩

/-- Store with `W8row` and no readings. -/
def W8 : NetworkState := { detectors := [W8row], readings := [] }

/-- A detector row used by the fleet-status witness. -/
def W7row : DetectorUnit := ⟨"d7", "lab", "hall", "he3_tube", 1, 4, "online", 0, 100⟩

/-- Store with `W7row` and one reading of 9 cps. -/
def W7 : NetworkState :=
  { detectors := [W7row],
    readings := [⟨"d7", 9, 9 * CPS_TO_DOSE "he3_tube", 30, false⟩] }

/-! ### Facts about the maximal-timestamp fold (`ORDER BY ts DESC LIMIT 1`) -/

/-- Folding `latestStep` from a `some` accumulator yields an element that is
either the accumulator or a list member, and whose timestamp dominates both
the accumulator timestamp and that of every list member. -/
theorem foldl_latestStep_some (l : List NeutronReading) :
    ∀ b : NeutronReading, ∃ c, l.foldl latestStep (some b) = some c ∧
      (c = b ∨ c ∈ l) ∧ b.timestamp ≤ c.timestamp ∧
      ∀ x ∈ l, x.timestamp ≤ c.timestamp := by
  induction l with
  | nil => exact fun b => ⟨b, rfl, Or.inl rfl, le_refl _, by simp⟩
  | cons r t ih =>
    intro b
    by_cases h : b.timestamp < r.timestamp
    · obtain ⟨c, hc, hmem, hle, hall⟩ := ih r
      refine ⟨c, by simpa [latestStep, h] using hc, ?_, le_of_lt (lt_of_lt_of_le h hle), ?_⟩
      · rcases hmem with h1 | h1
        · exact Or.inr (by simp [h1])
        · exact Or.inr (by simp [h1])
      · intro x hx
        rcases List.mem_cons.mp hx with h1 | h1
        · subst h1; exact hle
        · exact hall x h1
    · obtain ⟨c, hc, hmem, hle, hall⟩ := ih b
      refine ⟨c, by simpa [latestStep, h] using hc, ?_, hle, ?_⟩
      · rcases hmem with h1 | h1
        · exact Or.inl h1
        · exact Or.inr (by simp [h1])
      · intro x hx
        rcases List.mem_cons.mp hx with h1 | h1
        · subst h1; exact le_trans (not_lt.mp h) hle
        · exact hall x h1

/-- A detector has no latest reading exactly when it has no reading rows. -/
theorem latestReading_none_iff (s : NetworkState) (did : String) :
    latestReading s did = none ↔
      s.readings.filter (fun r => r.detector_id == did) = [] := by
  unfold latestReading
  cases h : s.readings.filter (fun r => r.detector_id == did) with
  | nil => simp
  | cons r t =>
    simp only [List.foldl_cons]
    obtain ⟨c, hc, -, -, -⟩ := foldl_latestStep_some t r
    rw [show latestStep none r = some r from rfl, hc]
    simp

/-- The latest reading is one of the reading rows of the detector and has maximal
timestamp among them. -/
theorem latestReading_some_spec (s : NetworkState) (did : String)
    (r : NeutronReading) (h : latestReading s did = some r) :
    r ∈ s.readings.filter (fun x => x.detector_id == did) ∧
      ∀ x ∈ s.readings.filter (fun x => x.detector_id == did),
        x.timestamp ≤ r.timestamp := by
  unfold latestReading at h
  cases hf : s.readings.filter (fun x => x.detector_id == did) with
  | nil => rw [hf] at h; simp at h
  | cons a t =>
    rw [hf] at h
    simp only [List.foldl_cons] at h
    obtain ⟨c, hc, hmem, hle, hall⟩ := foldl_latestStep_some t a
    rw [show latestStep none a = some a from rfl, hc] at h
    obtain rfl : c = r := Option.some.inj h
    refine ⟨?_, ?_⟩
    · rcases hmem with h1 | h1
      · simp [h1]
      · exact List.mem_cons_of_mem a h1
    · intro x hx
      rcases List.mem_cons.mp hx with h1 | h1
      · subst h1; exact hle
      · exact hall x h1

/-- A detector has a latest reading exactly when it has a reading row. -/
theorem latestReading_exists_iff (s : NetworkState) (did : String) :
    (∃ r, latestReading s did = some r) ↔
      s.readings.filter (fun x => x.detector_id == did) ≠ [] := by
  constructor
  · rintro ⟨r, hr⟩ hnil
    rw [(latestReading_none_iff s did).mpr hnil] at hr
    exact Option.noConfusion hr
  · intro hne
    cases h : latestReading s did with
    | none => exact absurd ((latestReading_none_iff s did).mp h) hne
    | some r => exact ⟨r, rfl⟩

/-! ### Claims -/

/-- C1: the claim says detectors with stored baseline 0 are guarded against
division by zero in the multiplier computation of `anomaly_scan`, so the call never
raises.  The code has no such guard: with a stored baseline of 0 (the
registration default) and a latest reading of 5 cps, the test
`cps > baseline * 3` passes and `round(cps / baseline, 2)` raises
`ZeroDivisionError`.  This theorem evaluates the code at that failing input. -/
theorem C1_anomaly_scan_raises_on_zero_baseline :
    anomaly_scan zeroBaselineState = .error NetError.zeroDivision := by
  norm_num [anomaly_scan, anomalyLoop, latestReading, latestStep, zeroBaselineState]

/-- C2 (counterexample): the claim says registering with an empty name,
empty location, or unrecognized type fails with a ValidationError and creates
no detector record.  In the code `register_detector` validates nothing: with
empty name, empty location and unrecognized type "warp_core" it succeeds and
the record is created. -/
theorem C2_register_accepts_invalid_input :
    (register_detector W0 "badid001" 0 "" "" "warp_core" 1).2.detectors =
      [⟨"badid001", "", "", "warp_core", 1, 0, "online", 0, 100⟩] := rfl

/-- C2 (amended): `register_detector` performs no input validation: for every
name, location and type — including empty strings and types outside the
recognized set — it succeeds, returns the fresh id, and appends a detector
record with the given fields (baseline 0, status "online", threshold 100). -/
theorem C2_register_never_validates (s : NetworkState) (detector_id : String)
    (now : Int) (name : String) (location : String) (detector_type : String)
    (sensitivity : ℚ) :
    (register_detector s detector_id now name location detector_type sensitivity).1 =
        detector_id ∧
      (register_detector s detector_id now name location detector_type
          sensitivity).2.detectors =
        s.detectors ++
          [⟨detector_id, name, location, detector_type, sensitivity, 0, "online",
            now, 100⟩] :=
  ⟨rfl, rfl⟩

/-- C3: the alert flag of a reading produced by `record_reading` equals
`cps > threshold` with the threshold stored at the moment of insertion, and a
later `set_threshold` (of any detector, to any value) leaves every stored
reading — flags included — unchanged. -/
theorem C3_alert_flag_frozen_at_insertion (s : NetworkState) (now : Int)
    (detector_id : String) (cps : ℚ) (d : DetectorUnit)
    (h : findDetector s detector_id = some d) :
    ∃ r s2, record_reading s now detector_id cps = .ok (r, s2) ∧
      r.alert_triggered = decide (cps > d.alert_threshold) ∧
      s2.readings = s.readings ++ [r] ∧
      ∀ id2 a, ((set_threshold s2 id2 a).2).readings = s2.readings := by
  refine ⟨⟨detector_id, cps, cps * CPS_TO_DOSE d.type, now,
      decide (cps > d.alert_threshold)⟩,
    { s with readings := s.readings ++ [⟨detector_id, cps, cps * CPS_TO_DOSE d.type,
      now, decide (cps > d.alert_threshold)⟩] }, ?_, rfl, rfl, fun id2 a => rfl⟩
  simp [record_reading, h]

/-- C3 witness at a concrete store. -/
theorem C3_witness :
    findDetector W3 "d1" = some ⟨"d1", "lab", "hall", "he3_tube", 1, 4, "online", 0, 100⟩ ∧
      ∃ r s2, record_reading W3 50 "d1" 7 = .ok (r, s2) ∧
        r.alert_triggered = decide ((7 : ℚ) > 100) ∧
        s2.readings = W3.readings ++ [r] ∧
        ∀ id2 a, ((set_threshold s2 id2 a).2).readings = s2.readings :=
  ⟨rfl, C3_alert_flag_frozen_at_insertion W3 50 "d1" 7
    ⟨"d1", "lab", "hall", "he3_tube", 1, 4, "online", 0, 100⟩ rfl⟩

/-- C4: `record_reading` computes `dose_usv_h = cps * CPS_TO_DOSE type`, where
`CPS_TO_DOSE` is exactly the fixed five-entry table of the spec with default
0.005 for every other type. -/
theorem C4_dose_conversion (s : NetworkState) (now : Int) (detector_id : String)
    (cps : ℚ) (d : DetectorUnit) (h : findDetector s detector_id = some d) :
    (∃ r s2, record_reading s now detector_id cps = .ok (r, s2) ∧
        r.dose_usv_h = cps * CPS_TO_DOSE d.type) ∧
      CPS_TO_DOSE "he3_tube" = 0.0064 ∧
      CPS_TO_DOSE "boron_lined" = 0.0042 ∧
      CPS_TO_DOSE "scintillator" = 0.0055 ∧
      CPS_TO_DOSE "fission_chamber" = 0.0075 ∧
      CPS_TO_DOSE "activation_foil" = 0.0045 ∧
      ∀ t, t ≠ "he3_tube" → t ≠ "boron_lined" → t ≠ "scintillator" →
        t ≠ "fission_chamber" → t ≠ "activation_foil" → CPS_TO_DOSE t = 0.005 := by
  refine ⟨⟨⟨detector_id, cps, cps * CPS_TO_DOSE d.type, now,
      decide (cps > d.alert_threshold)⟩,
    { s with readings := s.readings ++ [⟨detector_id, cps, cps * CPS_TO_DOSE d.type,
      now, decide (cps > d.alert_threshold)⟩] }, ?_, rfl⟩,
    rfl, rfl, rfl, rfl, rfl, ?_⟩
  · simp [record_reading, h]
  · intro t h1 h2 h3 h4 h5
    simp [CPS_TO_DOSE, h1, h2, h3, h4, h5]

/-- C4 witness at a concrete store with an unrecognized detector type. -/
theorem C4_witness :
    findDetector W4 "d1" = some ⟨"d1", "lab", "hall", "mystery_box", 1, 4, "online", 0, 100⟩ ∧
      (∃ r s2, record_reading W4 50 "d1" 7 = .ok (r, s2) ∧
        r.dose_usv_h = 7 * CPS_TO_DOSE "mystery_box") ∧
      CPS_TO_DOSE "mystery_box" = 0.005 :=
  have h := C4_dose_conversion W4 50 "d1" 7
    ⟨"d1", "lab", "hall", "mystery_box", 1, 4, "online", 0, 100⟩ rfl
  ⟨rfl, h.1, h.2.2.2.2.2.2 "mystery_box" (by decide) (by decide) (by decide)
    (by decide) (by decide)⟩

/-- C9: `record_reading` on an identifier absent from the store fails with the
not-found error (the `raise ValueError` with a not-found message in the code,
the NotFoundError of the spec taxonomy) and returns no new store, so no reading is
inserted. -/
theorem C9_record_reading_unknown_id (s : NetworkState) (now : Int)
    (detector_id : String) (cps : ℚ)
    (h : findDetector s detector_id = none) :
    record_reading s now detector_id cps = .error (NetError.notFound detector_id) := by
  simp [record_reading, h]

/-- C9 witness at the empty store. -/
theorem C9_record_reading_unknown_id_witness :
    findDetector W0 "ghost" = none ∧
      record_reading W0 0 "ghost" 1 = .error (NetError.notFound "ghost") :=
  ⟨rfl, C9_record_reading_unknown_id W0 0 "ghost" 1 rfl⟩

/-- C10: `set_threshold` returns True for every detector id and every value,
and for an id absent from the store it changes nothing (the UPDATE matches no
row) yet still reports success instead of a not-found error. -/
theorem C10_set_threshold_always_succeeds (s : NetworkState)
    (detector_id : String) (alert_cps : ℚ) :
    (set_threshold s detector_id alert_cps).1 = true ∧
      (findDetector s detector_id = none →
        (set_threshold s detector_id alert_cps).2 = s) := by
  refine ⟨rfl, fun h => ?_⟩
  have hall : ∀ d ∈ s.detectors, ¬((d.id == detector_id) = true) :=
    List.find?_eq_none.mp h
  have hmap : s.detectors.map (fun d => if d.id == detector_id then
      { d with alert_threshold := alert_cps } else d) = s.detectors := by
    conv_rhs => rw [← List.map_id s.detectors]
    refine List.map_congr_left fun d hd => ?_
    rw [if_neg (hall d hd)]
    rfl
  have hstep : (set_threshold s detector_id alert_cps).2 =
      { s with detectors := s.detectors.map (fun d => if d.id == detector_id then
        { d with alert_threshold := alert_cps } else d) } := rfl
  rw [hstep, hmap]

/-- C10 witness at the empty store. -/
theorem C10_set_threshold_always_succeeds_witness :
    findDetector W0 "nobody" = none ∧
      (set_threshold W0 "nobody" 5).1 = true ∧
      (set_threshold W0 "nobody" 5).2 = W0 :=
  ⟨rfl, (C10_set_threshold_always_succeeds W0 "nobody" 5).1,
    (C10_set_threshold_always_succeeds W0 "nobody" 5).2 rfl⟩

/-! ### Characterizing the anomaly-scan loop -/

/-- Inverting `anomalyOf s d = some a`. -/
theorem anomalyOf_some_spec (s : NetworkState) (d : DetectorUnit) (a : Anomaly)
    (h : anomalyOf s d = some a) :
    ∃ r, latestReading s d.id = some r ∧ r.cps > d.baseline_cps * 3 ∧
      a = ⟨d.id, d.baseline_cps, r.cps, pyRound2 (r.cps / d.baseline_cps),
        r.timestamp⟩ := by
  cases hl : latestReading s d.id with
  | none =>
    simp only [anomalyOf, hl] at h
    exact absurd h (by simp)
  | some r =>
    simp only [anomalyOf, hl] at h
    by_cases hc : r.cps > d.baseline_cps * 3
    · rw [if_pos hc] at h
      exact ⟨r, rfl, hc, (Option.some.inj h).symm⟩
    · rw [if_neg hc] at h
      exact absurd h (by simp)

/-- Introducing `anomalyOf s d = some _`. -/
theorem anomalyOf_eq_some (s : NetworkState) (d : DetectorUnit)
    (r : NeutronReading) (hl : latestReading s d.id = some r)
    (hc : r.cps > d.baseline_cps * 3) :
    anomalyOf s d = some ⟨d.id, d.baseline_cps, r.cps,
      pyRound2 (r.cps / d.baseline_cps), r.timestamp⟩ := by
  simp only [anomalyOf, hl]
  rw [if_pos hc]

/-- When no scanned detector row trips the division by zero, the loop returns
normally with exactly the `anomalyOf` entries appended to the accumulator. -/
theorem anomalyLoop_ok_of_guard (s : NetworkState) :
    ∀ ds : List DetectorUnit,
      (∀ d ∈ ds, ∀ r, latestReading s d.id = some r →
        r.cps > d.baseline_cps * 3 → d.baseline_cps ≠ 0) →
      ∀ acc, anomalyLoop s ds acc = .ok (acc ++ ds.filterMap (anomalyOf s)) := by
  intro ds
  induction ds with
  | nil => intro _ acc; simp [anomalyLoop]
  | cons d rest ih =>
    intro hguard acc
    have hrest := fun d2 h2 => hguard d2 (List.mem_cons_of_mem d h2)
    cases hl : latestReading s d.id with
    | none =>
      have hnone : anomalyOf s d = none := by simp only [anomalyOf, hl]
      simp only [anomalyLoop, hl, List.filterMap_cons, hnone]
      exact ih hrest acc
    | some r =>
      by_cases hc : r.cps > d.baseline_cps * 3
      · have hnz : d.baseline_cps ≠ 0 :=
          hguard d (List.mem_cons_self d rest) r hl hc
        have hsome := anomalyOf_eq_some s d r hl hc
        simp only [anomalyLoop, hl, List.filterMap_cons, hsome, if_pos hc, if_neg hnz]
        rw [ih hrest]
        simp [List.append_assoc]
      · have hnone : anomalyOf s d = none := by
          simp only [anomalyOf, hl]
          rw [if_neg hc]
        simp only [anomalyLoop, hl, List.filterMap_cons, hnone, if_neg hc]
        exact ih hrest acc

/-- C5 (counterexample): the claim says `anomaly_scan` returns an entry for a
detector iff it has a reading and its latest cps exceeds 3 × baseline.  In
`zeroBaselineState2`, detector "d2" has a latest reading of 6 cps and
6 > 3 × 0, yet `anomaly_scan` returns no list at all — it raises
`ZeroDivisionError` — so no entry is returned for "d2" and the iff fails. -/
theorem C5_counterexample :
    latestReading zeroBaselineState2 "d2" =
        some ⟨"d2", 6, 6 * CPS_TO_DOSE "scintillator", 20, false⟩ ∧
      (6 : ℚ) > 0 * 3 ∧
      anomaly_scan zeroBaselineState2 = .error NetError.zeroDivision := by
  refine ⟨rfl, by norm_num, ?_⟩
  norm_num [anomaly_scan, anomalyLoop, latestReading, latestStep, zeroBaselineState2]

/-- C5 (amended): provided no detector with a latest reading above 3 × its
baseline has baseline 0 (such a store makes the code raise ZeroDivisionError,
see the counterexample) and detector ids are unique (the `detectors.id`
PRIMARY KEY), `anomaly_scan` returns a list containing an entry for a
detector iff the detector has at least one reading whose latest cps strictly
exceeds 3 × its stored baseline, and every entry for it carries the stored
baseline, the cps and timestamp of the latest reading, and
multiplier = round(current / baseline, 2). -/
theorem C5_anomaly_scan_characterization (s : NetworkState)
    (hguard : ∀ d ∈ s.detectors, ∀ r, latestReading s d.id = some r →
      r.cps > d.baseline_cps * 3 → d.baseline_cps ≠ 0)
    (hnodup : (s.detectors.map DetectorUnit.id).Nodup)
    (d : DetectorUnit) (hd : d ∈ s.detectors) :
    ∃ l, anomaly_scan s = .ok l ∧
      ((∃ a ∈ l, a.detector_id = d.id) ↔
        ∃ r, latestReading s d.id = some r ∧ r.cps > d.baseline_cps * 3) ∧
      ((∃ r, latestReading s d.id = some r) ↔
        s.readings.filter (fun x => x.detector_id == d.id) ≠ []) ∧
      ∀ a ∈ l, a.detector_id = d.id →
        ∃ r, latestReading s d.id = some r ∧ a.baseline_cps = d.baseline_cps ∧
          a.current_cps = r.cps ∧ a.timestamp = r.timestamp ∧
          a.multiplier = pyRound2 (r.cps / d.baseline_cps) := by
  refine ⟨s.detectors.filterMap (anomalyOf s),
    by simpa using anomalyLoop_ok_of_guard s s.detectors hguard [], ?_,
    latestReading_exists_iff s d.id, ?_⟩
  · constructor
    · rintro ⟨a, ha, hid⟩
      obtain ⟨d2, hd2, hf⟩ := List.mem_filterMap.mp ha
      obtain ⟨r, hr, hc, hav⟩ := anomalyOf_some_spec s d2 a hf
      have hid2 : a.detector_id = d2.id := by rw [hav]
      have heq : d2 = d :=
        List.inj_on_of_nodup_map hnodup hd2 hd (by rw [← hid2]; exact hid)
      subst heq
      exact ⟨r, hr, hc⟩
    · rintro ⟨r, hr, hc⟩
      exact ⟨⟨d.id, d.baseline_cps, r.cps, pyRound2 (r.cps / d.baseline_cps),
          r.timestamp⟩,
        List.mem_filterMap.mpr ⟨d, hd, anomalyOf_eq_some s d r hr hc⟩, rfl⟩
  · intro a ha hid
    obtain ⟨d2, hd2, hf⟩ := List.mem_filterMap.mp ha
    obtain ⟨r, hr, hc, hav⟩ := anomalyOf_some_spec s d2 a hf
    have hid2 : a.detector_id = d2.id := by rw [hav]
    have heq : d2 = d :=
      List.inj_on_of_nodup_map hnodup hd2 hd (by rw [← hid2]; exact hid)
    subst heq
    exact ⟨r, hr, by rw [hav], by rw [hav], by rw [hav], by rw [hav]⟩

/-- C5 witness at a concrete store with nonzero baseline and an anomalous
reading. -/
theorem C5_anomaly_scan_characterization_witness :
    ∃ l, anomaly_scan W5 = .ok l ∧
      ((∃ a ∈ l, a.detector_id = W5row.id) ↔
        ∃ r, latestReading W5 W5row.id = some r ∧
          r.cps > W5row.baseline_cps * 3) ∧
      ((∃ r, latestReading W5 W5row.id = some r) ↔
        W5.readings.filter (fun x => x.detector_id == W5row.id) ≠ []) ∧
      ∀ a ∈ l, a.detector_id = W5row.id →
        ∃ r, latestReading W5 W5row.id = some r ∧
          a.baseline_cps = W5row.baseline_cps ∧ a.current_cps = r.cps ∧
          a.timestamp = r.timestamp ∧
          a.multiplier = pyRound2 (r.cps / W5row.baseline_cps) :=
  C5_anomaly_scan_characterization W5
    (by
      intro d hd r hr hc
      simp only [W5, List.mem_singleton] at hd
      subst hd
      simp [W5row])
    (by simp [W5, W5row])
    W5row (by simp [W5])

/-- C7: `fleet_status` lists a detector iff it has at least one stored
reading (a registered detector with zero readings is omitted), and each
emitted entry carries the cps, dose and timestamp of the most recent reading
of the detector (a stored reading of that detector with maximal timestamp).
Detector ids are assumed unique (the `detectors.id` PRIMARY KEY). -/
theorem C7_fleet_status_characterization (s : NetworkState)
    (hnodup : (s.detectors.map DetectorUnit.id).Nodup)
    (d : DetectorUnit) (hd : d ∈ s.detectors) :
    ((∃ e ∈ fleet_status s, e.id = d.id) ↔
      s.readings.filter (fun x => x.detector_id == d.id) ≠ []) ∧
    ∀ e ∈ fleet_status s, e.id = d.id →
      ∃ r, latestReading s d.id = some r ∧
        r ∈ s.readings.filter (fun x => x.detector_id == d.id) ∧
        (∀ x ∈ s.readings.filter (fun x => x.detector_id == d.id),
          x.timestamp ≤ r.timestamp) ∧
        e.cps = r.cps ∧ e.dose_usv_h = r.dose_usv_h ∧ e.timestamp = r.timestamp := by
  have hmem : ∀ e ∈ fleet_status s, e.id = d.id →
      ∃ r, latestReading s d.id = some r ∧ e.cps = r.cps ∧
        e.dose_usv_h = r.dose_usv_h ∧ e.timestamp = r.timestamp := by
    intro e he hid
    obtain ⟨d2, hd2, hf⟩ := List.mem_filterMap.mp he
    obtain ⟨r, hr, hfr⟩ := Option.map_eq_some'.mp hf
    have hid2 : e.id = d2.id := by rw [← hfr]
    have heq : d2 = d :=
      List.inj_on_of_nodup_map hnodup hd2 hd (by rw [← hid2]; exact hid)
    subst heq
    exact ⟨r, hr, by rw [← hfr], by rw [← hfr], by rw [← hfr]⟩
  constructor
  · constructor
    · rintro ⟨e, he, hid⟩
      obtain ⟨r, hr, -⟩ := hmem e he hid
      exact (latestReading_exists_iff s d.id).mp ⟨r, hr⟩
    · intro hne
      obtain ⟨r, hr⟩ := (latestReading_exists_iff s d.id).mpr hne
      refine ⟨⟨d.id, d.name, d.location, d.type, d.status, r.cps, r.dose_usv_h,
        r.timestamp⟩, ?_, rfl⟩
      exact List.mem_filterMap.mpr ⟨d, hd, by rw [hr]; rfl⟩
  · intro e he hid
    obtain ⟨r, hr, h1, h2, h3⟩ := hmem e he hid
    obtain ⟨hmem2, hmax⟩ := latestReading_some_spec s d.id r hr
    exact ⟨r, hr, hmem2, hmax, h1, h2, h3⟩

/-- C7 witness at a concrete store with one detector and one reading. -/
theorem C7_fleet_status_characterization_witness :
    ((∃ e ∈ fleet_status W7, e.id = W7row.id) ↔
      W7.readings.filter (fun x => x.detector_id == W7row.id) ≠ []) ∧
    ∀ e ∈ fleet_status W7, e.id = W7row.id →
      ∃ r, latestReading W7 W7row.id = some r ∧
        r ∈ W7.readings.filter (fun x => x.detector_id == W7row.id) ∧
        (∀ x ∈ W7.readings.filter (fun x => x.detector_id == W7row.id),
          x.timestamp ≤ r.timestamp) ∧
        e.cps = r.cps ∧ e.dose_usv_h = r.dose_usv_h ∧ e.timestamp = r.timestamp :=
  C7_fleet_status_characterization W7 (by simp [W7, W7row]) W7row (by simp [W7])

/-! ### Calibration -/

/-- Finding by id commutes with an id-preserving conditional map (the SQL
UPDATE ... WHERE id = ?). -/
theorem find?_map_update (l : List DetectorUnit) (detector_id : String)
    (f : DetectorUnit → DetectorUnit) (hf : ∀ d, (f d).id = d.id) :
    (l.map (fun d => if d.id == detector_id then f d else d)).find?
        (fun x => x.id == detector_id) =
      (l.find? (fun x => x.id == detector_id)).map f := by
  induction l with
  | nil => rfl
  | cons a t ih =>
    cases h : (a.id == detector_id) with
    | true =>
      have hfa : ((f a).id == detector_id) = true := by rw [hf a]; exact h
      simp only [List.map_cons, h, eq_self_iff_true, if_true, List.find?_cons,
        hfa, Option.map_some']
    | false =>
      have hfa : ((f a).id == detector_id) = false := by rw [hf a]; exact h
      simp only [List.map_cons, h, Bool.false_eq_true, if_false, List.find?_cons,
        ih]

/-- C6: `calibrate` with an empty trailing-24h spectrum returns 0.0 and leaves
the store (hence the stored baseline and last_calibration) unchanged; with a
nonempty spectrum it returns the arithmetic mean of the cps values and the
stored row of the detector afterwards carries that mean as baseline and now as
last_calibration. -/
theorem C6_calibrate_spec (s : NetworkState) (detector_id : String) (now : Int) :
    (get_spectrum s detector_id now 24 = [] →
      calibrate s detector_id now = (0, s)) ∧
    (get_spectrum s detector_id now 24 ≠ [] →
      (calibrate s detector_id now).1 =
          ((get_spectrum s detector_id now 24).map Prod.snd).sum /
            ((get_spectrum s detector_id now 24).length : ℚ) ∧
        ∀ d, findDetector s detector_id = some d →
          findDetector (calibrate s detector_id now).2 detector_id =
            some { d with baseline_cps := (calibrate s detector_id now).1,
                          last_calibration := now }) := by
  constructor
  · intro h
    simp [calibrate, h]
  · intro hne
    cases hsp : get_spectrum s detector_id now 24 with
    | nil => exact absurd hsp hne
    | cons p t =>
      have hcal : calibrate s detector_id now =
          (((p :: t).map Prod.snd).sum / ((p :: t).length : ℚ),
           { s with detectors := s.detectors.map (fun d =>
              if d.id == detector_id then
                { d with
                  baseline_cps :=
                    ((p :: t).map Prod.snd).sum / ((p :: t).length : ℚ),
                  last_calibration := now }
              else d) }) := by
        simp [calibrate, hsp]
      rw [hcal]
      refine ⟨rfl, fun d hd => ?_⟩
      have hd2 : s.detectors.find? (fun x => x.id == detector_id) = some d := hd
      have hmain := find?_map_update s.detectors detector_id
        (fun d => { d with
          baseline_cps := ((p :: t).map Prod.snd).sum / ((p :: t).length : ℚ),
          last_calibration := now }) (fun _ => rfl)
      rw [hd2, Option.map_some'] at hmain
      exact hmain

/-- C6 witness: at `W6`, an id with no readings calibrates to (0, store
unchanged); the detector "d6" with one 8-cps reading in the window calibrates
to the mean and its row is updated. -/
theorem C6_calibrate_spec_witness :
    (calibrate W6 "nope" 1000 = (0, W6)) ∧
    ((calibrate W6 "d6" 1000).1 =
        ((get_spectrum W6 "d6" 1000 24).map Prod.snd).sum /
          ((get_spectrum W6 "d6" 1000 24).length : ℚ) ∧
      findDetector (calibrate W6 "d6" 1000).2 "d6" =
        some { W6row with baseline_cps := (calibrate W6 "d6" 1000).1,
                          last_calibration := 1000 }) := by
  have hspec : get_spectrum W6 "d6" 1000 24 = [(30, 8)] := rfl
  have hne : get_spectrum W6 "d6" 1000 24 ≠ [] := by rw [hspec]; simp
  have h := (C6_calibrate_spec W6 "d6" 1000).2 hne
  exact ⟨(C6_calibrate_spec W6 "nope" 1000).1 rfl, h.1, h.2 W6row rfl⟩

/-! ### Record-then-spectrum round trip -/

/-- Permutations preserve `count` (for the ambient `BEq`). -/
theorem count_eq_of_perm {α : Type} [BEq α] {l1 l2 : List α} (h : l1.Perm l2)
    (a : α) : l1.count a = l2.count a :=
  h.countP_eq _

/-- C8: after `record_reading`, a `get_spectrum` call whose trailing window
covers the timestamp of the new reading (window end = its ingestion time
`now`, nonnegative `hours`) returns the submitted cps exactly once at that
timestamp, in ascending timestamp order, with every returned pair inside the
trailing window.  Freshness of the ingestion timestamp (no earlier reading of
this detector at `now`) reflects `datetime.now()` strictly advancing. -/
theorem C8_record_then_spectrum (s : NetworkState) (now : Int)
    (detector_id : String) (cps : ℚ) (hours : Int) (d : DetectorUnit)
    (hd : findDetector s detector_id = some d)
    (hhours : 0 ≤ hours)
    (hfresh : ∀ r0 ∈ s.readings, r0.detector_id = detector_id →
      r0.timestamp ≠ now) :
    ∃ r s2, record_reading s now detector_id cps = .ok (r, s2) ∧
      r.timestamp = now ∧ r.cps = cps ∧
      (get_spectrum s2 detector_id now hours).count (now, cps) = 1 ∧
      (get_spectrum s2 detector_id now hours).Sorted tsLE ∧
      ∀ p ∈ get_spectrum s2 detector_id now hours,
        now - hours * 3600 ≤ p.1 := by
  refine ⟨⟨detector_id, cps, cps * CPS_TO_DOSE d.type, now,
      decide (cps > d.alert_threshold)⟩,
    { s with readings := s.readings ++ [⟨detector_id, cps,
      cps * CPS_TO_DOSE d.type, now, decide (cps > d.alert_threshold)⟩] },
    ?_, rfl, rfl, ?_, ?_, ?_⟩
  · simp [record_reading, hd]
  · rw [get_spectrum]
    rw [count_eq_of_perm (List.perm_insertionSort tsLE _)]
    rw [List.filter_append, List.map_append, List.count_append]
    have hsingle : List.filter
        (fun r => r.detector_id == detector_id &&
          decide (now - hours * 3600 ≤ r.timestamp))
        [(⟨detector_id, cps, cps * CPS_TO_DOSE d.type, now,
          decide (cps > d.alert_threshold)⟩ : NeutronReading)] =
        [⟨detector_id, cps, cps * CPS_TO_DOSE d.type, now,
          decide (cps > d.alert_threshold)⟩] := by
      simp
      omega
    rw [hsingle]
    have hzero : ((s.readings.filter
        (fun r => r.detector_id == detector_id &&
          decide (now - hours * 3600 ≤ r.timestamp))).map
        (fun r => (r.timestamp, r.cps))).count ((now, cps) : Int × ℚ) = 0 := by
      rw [List.count_eq_zero]
      intro hmem
      obtain ⟨r0, hr0, heq⟩ := List.mem_map.mp hmem
      obtain ⟨hr0mem, hr0pred⟩ := List.mem_filter.mp hr0
      have hid : r0.detector_id = detector_id := by
        have := (Bool.and_eq_true _ _).mp hr0pred
        exact eq_of_beq this.1
      have hts : r0.timestamp = now := congrArg Prod.fst heq
      exact hfresh r0 hr0mem hid hts
    rw [hzero]
    simp
  · exact List.sorted_insertionSort tsLE _
  · intro p hp
    rw [get_spectrum] at hp
    rw [List.Perm.mem_iff (List.perm_insertionSort tsLE _)] at hp
    obtain ⟨r0, hr0, heq⟩ := List.mem_map.mp hp
    obtain ⟨-, hr0pred⟩ := List.mem_filter.mp hr0
    have hts : now - hours * 3600 ≤ r0.timestamp :=
      of_decide_eq_true ((Bool.and_eq_true _ _).mp hr0pred).2
    rw [← heq]
    exact hts

/-- C8 witness: record 7 cps at time 50 on `W8` and read the 1-hour
spectrum back. -/
theorem C8_record_then_spectrum_witness :
    (0 : Int) ≤ 1 ∧
    ∃ r s2, record_reading W8 50 "d8" 7 = .ok (r, s2) ∧
      r.timestamp = 50 ∧ r.cps = 7 ∧
      (get_spectrum s2 "d8" 50 1).count (50, 7) = 1 ∧
      (get_spectrum s2 "d8" 50 1).Sorted tsLE ∧
      ∀ p ∈ get_spectrum s2 "d8" 50 1, (50 : Int) - 1 * 3600 ≤ p.1 :=
  ⟨by decide,
   C8_record_then_spectrum W8 50 "d8" 7 1 W8row rfl (by decide)
     (by intro r0 h; exact absurd h (List.not_mem_nil r0))⟩

end NeutronDetector
